import Mathlib

/-!
Verification of the SIGEC-VE central system (CSMS) against its specification.

The source keeps two parallel SQLAlchemy model families:
  * `ev_charging_system/models/` (charge_point.py, transaction.py, user.py) —
    the family the repositories in `data/repositories.py` query, and
  * `ev_charging_system/data/models.py` — the family the OCPP handlers and
    `DeviceManagementService` construct and query directly.
The embedding keeps one store per family (prefix `M` for the `models/` family,
prefix `D` for the `data/models.py` family).

Python dynamics that decide several claims are modeled explicitly:
  * keyword-argument binding (`kwargsBind`): a call raises TypeError when a
    required parameter is missing or an unexpected keyword is passed;
  * attribute/method lookup against the literal method lists of
    `data/repositories.py`: a missing method raises AttributeError;
  * SQL comparisons between columns and operands of mismatched type, with
    SQLite affinity semantics (`sqlEqIntCol`, `sqlEqStrCol`);
  * assignment to an attribute that is not a mapped column of the model is a
    plain instance-attribute write that `commit()` does not persist; such
    writes are modeled as leaving the store unchanged, with the model's
    literal column list (`mTransactionColumns`, `mChargePointColumns`) kept
    in the file so the omission is checkable.

Timestamps and meter values are modeled as `Int` (the meter arithmetic in the
source is on integral values passed through `float`, which is exact here).
-/

namespace SigecVE

/-- Python exceptions that the embedded code can raise. -/
inductive PyError where
  | typeError (msg : String)
  | attributeError (msg : String)
  | valueError (msg : String)
  deriving DecidableEq, Repr

deriving instance DecidableEq for Except

/-- Python keyword-argument binding: a call passing exactly the keyword set
`provided` binds against a signature with parameter names `required`
(no default) and `optional` (with default) iff every required name is
provided and every provided name is a parameter; otherwise the call raises
TypeError before the callee body runs. -/
def kwargsBind (provided required optional : List String) : Bool :=
  required.all (fun r => provided.contains r) &&
  provided.all (fun p => required.contains p || optional.contains p)

/-- A dynamically typed Python value used as a SQL comparison operand. -/
inductive PyVal where
  | pstr (s : String)
  | pint (n : Int)
  deriving DecidableEq, Repr

/-- The numeric value of a decimal digit character, if it is one. -/
def digitVal (c : Char) : Option Nat :=
  if 48 ≤ c.toNat && c.toNat ≤ 57 then some (c.toNat - 48) else none

/-- Reads a non-empty run of decimal digits. -/
def readDigits : List Char → Nat → Option Nat
  | [], acc => some acc
  | c :: cs, acc =>
      match digitVal c with
      | some d => readDigits cs (10 * acc + d)
      | none => none

/-- The integer value of a text operand, as SQLite numeric conversion reads
it: an optional minus sign followed by decimal digits; anything else has no
integer value. -/
def strToInt? (s : String) : Option Int :=
  match s.data with
  | [] => none
  | c :: cs =>
      if c = '-' then
        match cs with
        | [] => none
        | _ => (readDigits cs 0).map (fun n => -(n : Int))
      else
        (readDigits (c :: cs) 0).map (fun n => (n : Int))

/-- SQLite comparison of an INTEGER-affinity column value `n` with an operand:
a text operand is compared after numeric conversion; non-numeric text never
equals an integer. -/
def sqlEqIntCol (v : PyVal) (n : Int) : Bool :=
  match v with
  | .pint m => m == n
  | .pstr s => strToInt? s == some n

/-- SQLite comparison of a TEXT-affinity column value `t` with an operand:
a numeric operand is converted to its text form. -/
def sqlEqStrCol (v : PyVal) (t : String) : Bool :=
  match v with
  | .pstr s => s == t
  | .pint m => toString m == t

/-! ### The `models/` family (queried by `data/repositories.py`) -/

/-- `models/user.py User`: columns id, auth_tag, name, email, balance,
preferences (the last three are irrelevant to the claims and omitted).
Note the model has no `is_active` column. -/
structure MUser where
  id : String
  auth_tag : String
  name : String
  deriving DecidableEq, Repr

/-- The full attribute list of `models/user.py User` (columns and
relationships), used to decide Python attribute accesses on its instances. -/
def mUserAttrs : List String :=
  ["id", "auth_tag", "name", "email", "balance", "preferences", "transactions"]

/-- `models/charge_point.py ChargePoint`: the station, keyed by its OCPP id
string. Columns irrelevant to the claims are omitted; see
`mChargePointColumns` for the full list. -/
structure MChargePoint where
  id : String
  status : String
  last_heartbeat_time : Option Int
  deriving DecidableEq, Repr

/-- The mapped attribute list of `models/charge_point.py ChargePoint`.
In particular `last_heartbeat` (written by
`DeviceManagementService.update_charge_point_last_heartbeat`) is not here. -/
def mChargePointColumns : List String :=
  ["id", "vendor_name", "model", "location", "firmware_version", "status",
   "last_boot_time", "last_heartbeat_time", "configuration", "latitude",
   "longitude", "connectors"]

/-- `models/charge_point.py ChargePointConnector`: integer primary key `id`,
string foreign key `charge_point_id`, plus status and the nullable
current-transaction reference. -/
structure MConnector where
  id : Int
  charge_point_id : String
  status : String
  current_transaction_id : Option String
  deriving DecidableEq, Repr

/-- `models/transaction.py Transaction`: string primary key, stop data in
`end_time` / `end_meter_value` / `total_energy_kwh`. -/
structure MTransaction where
  id : String
  charge_point_id : String
  connector_id : Int
  user_id : String
  start_time : Int
  end_time : Option Int
  start_meter_value : Int
  end_meter_value : Option Int
  total_energy_kwh : Option Int
  status : String
  stop_reason : Option String
  deriving DecidableEq, Repr

/-- The mapped attribute list of `models/transaction.py Transaction`.
In particular `stop_time`, `meter_stop` and `energy_transfered` (all written
by `DeviceManagementService.stop_transaction`) are not here. -/
def mTransactionColumns : List String :=
  ["id", "charge_point_id", "connector_id", "user_id", "start_time",
   "end_time", "start_meter_value", "end_meter_value", "total_energy_kwh",
   "status", "tariff_applied", "cost", "stop_reason", "charge_point",
   "connector", "user"]

/-! ### The `data/models.py` family (used directly by the OCPP handlers) -/

/-- `data/models.py Transaction`: integer autoincrement primary key `id`
(used as the on-wire OCPP transaction id by the handlers), string
`transaction_id` CSMS key. -/
structure DTransaction where
  id : Int
  transaction_id : String
  charge_point_id : String
  connector_id : Int
  id_tag : String
  start_time : Int
  stop_time : Option Int
  meter_start : Int
  meter_stop : Option Int
  energy_transfered : Int
  status : String
  deriving DecidableEq, Repr

/-- `data/models.py User`: carries the `is_active` authorized flag
(default True). Only the fields the claims mention are kept. -/
structure DUser where
  user_id : String
  id_tag : String
  is_active : Bool
  deriving DecidableEq, Repr

/-- The settable attribute list of `data/models.py ChargePoint` (mapped
columns plus relationship attributes), used to decide the keyword arguments
its declarative constructor accepts. Note `vendor` is not among them: the
column is `vendor_name`. -/
def dataChargePointAttrs : List String :=
  ["id", "charge_point_id", "status", "vendor_name", "model",
   "last_heartbeat", "firmware_version", "address", "num_connectors",
   "last_boot_notification", "created_at", "updated_at", "connectors",
   "transactions"]

/-! ### Repository method tables (the literal method names of
`data/repositories.py`) -/

def userRepositoryMethods : List String :=
  ["get_user_by_id", "get_user_by_auth_tag", "create_user", "update_user"]

def chargePointRepositoryMethods : List String :=
  ["get_charge_point_by_id", "create_charge_point", "update_charge_point",
   "get_all_charge_points", "get_connector_by_id", "create_connector",
   "update_connector"]

def transactionRepositoryMethods : List String :=
  ["get_transaction_by_id", "create_transaction", "update_transaction",
   "get_transactions_by_user_id", "get_transactions_by_charge_point_id"]

/-! ### The persistent store -/

/-- The persistent state visible to the service layer: one list per table
and model family. -/
structure DB where
  users : List MUser
  dUsers : List DUser
  mChargePoints : List MChargePoint
  mConnectors : List MConnector
  mTransactions : List MTransaction
  dTransactions : List DTransaction
  deriving DecidableEq, Repr

def emptyDB : DB :=
  { users := [], dUsers := [], mChargePoints := [], mConnectors := [],
    mTransactions := [], dTransactions := [] }

/-! ### `data/repositories.py` -/

/-- `UserRepository.get_user_by_auth_tag`. -/
def get_user_by_auth_tag (db : DB) (auth_tag : String) : Option MUser :=
  db.users.find? (fun u => u.auth_tag == auth_tag)

/-- `ChargePointRepository.get_charge_point_by_id`: filters
`ChargePoint.id == cp_id` over the `models/` family. -/
def get_charge_point_by_id (db : DB) (cp_id : String) : Option MChargePoint :=
  db.mChargePoints.find? (fun cp => cp.id == cp_id)

/-- `ChargePointRepository.get_connector_by_id(connector_id, cp_id)`: filters
`ChargePointConnector.id == connector_id` (integer column) and
`ChargePointConnector.charge_point_id == cp_id` (text column). The operands
are dynamic Python values because one call site passes them swapped. -/
def get_connector_by_id (db : DB) (connector_id cp_id : PyVal) :
    Option MConnector :=
  db.mConnectors.find? (fun c =>
    sqlEqIntCol connector_id c.id && sqlEqStrCol cp_id c.charge_point_id)

/-- `TransactionRepository.get_transaction_by_id`: filters
`Transaction.id == transaction_id` over the `models/` family (string key). -/
def m_get_transaction_by_id (db : DB) (transaction_id : String) :
    Option MTransaction :=
  db.mTransactions.find? (fun t => t.id == transaction_id)

/-- `TransactionRepository.create_transaction`: add and commit. -/
def create_transaction (db : DB) (t : MTransaction) : DB :=
  { db with mTransactions := db.mTransactions ++ [t] }

/-- `TransactionRepository.update_transaction`: add the (already tracked)
object and commit — the row with the same key now holds the new values. -/
def update_transaction (db : DB) (t : MTransaction) : DB :=
  { db with mTransactions :=
      db.mTransactions.map (fun x => if x.id == t.id then t else x) }

/-- The query `db_session.query(Transaction).filter(Transaction.id ==
transaction_id)` issued inline by `on_stop_transaction` against the
`data/models.py` family (integer key). -/
def d_get_transaction_by_wire_id (db : DB) (transaction_id : Int) :
    Option DTransaction :=
  db.dTransactions.find? (fun t => t.id == transaction_id)

/-! ### `business_logic/device_management_service.py` -/

/-- `DeviceManagementService.get_user_by_id_tag`: its body is
`return self.user_repo.get_user_by_id_tag(id_tag)`. `UserRepository` exposes
`get_user_by_auth_tag` but no `get_user_by_id_tag`, so the attribute access
raises AttributeError. -/
def dms_get_user_by_id_tag (db : DB) (id_tag : String) :
    Except PyError (Option MUser) :=
  if userRepositoryMethods.contains "get_user_by_id_tag" then
    -- unreachable: the repository has no such method
    .ok (get_user_by_auth_tag db id_tag)
  else
    .error (.attributeError
      "UserRepository object has no attribute get_user_by_id_tag")

/-- `DeviceManagementService.update_charge_point_status`: look the station up
by id, set its status and commit; returns whether a station was found. -/
def dms_update_charge_point_status (db : DB) (cp_id status : String) :
    DB × Bool :=
  match get_charge_point_by_id db cp_id with
  | some _ =>
      ({ db with mChargePoints := db.mChargePoints.map (fun cp =>
          if cp.id == cp_id then { cp with status := status } else cp) },
       true)
  | none => (db, false)

/-- `DeviceManagementService.update_charge_point_last_heartbeat`: looks the
station up, then assigns `charge_point.last_heartbeat = utcnow()`.
`last_heartbeat` is not in `mChargePointColumns` (the mapped column is
`last_heartbeat_time`), so the assignment is an unmapped instance attribute
and the commit persists no change. -/
def dms_update_charge_point_last_heartbeat (db : DB) (cp_id : String)
    (now : Int) : DB × Bool :=
  match get_charge_point_by_id db cp_id with
  | some _ => (db, true)
  | none => (db, false)

/-- `DeviceManagementService.update_connector_status`: the source calls
`self.charge_point_repo.get_connector_by_id(cp_id, connector_id)`, but the
repository signature is `get_connector_by_id(connector_id, cp_id)`, so
positionally the station-id string is compared with the integer `id` column
and the connector number with the text `charge_point_id` column. -/
def dms_update_connector_status (db : DB) (cp_id : String)
    (connector_id : Int) (status : String) : DB × Bool :=
  match get_connector_by_id db (.pstr cp_id) (.pint connector_id) with
  | some c =>
      ({ db with mConnectors := db.mConnectors.map (fun x =>
          if x.id == c.id && x.charge_point_id == c.charge_point_id then
            { x with status := status } else x) },
       true)
  | none => (db, false)

/-- `DeviceManagementService.add_charge_point`: duplicate ids raise
ValueError before any write; otherwise the source constructs
`ChargePoint(charge_point_id=…, vendor=…, model=…, num_connectors=…,
status="Online")` from `data/models.py`, whose declarative constructor
accepts only attributes in `dataChargePointAttrs` — `vendor` is not one, so
the constructor raises TypeError. (Had it succeeded, the next call
`self.charge_point_repo.add_charge_point(…)` would raise AttributeError:
`chargePointRepositoryMethods` has no `add_charge_point`, and no
`add_connector` for the per-connector loop either.) -/
def dms_add_charge_point (db : DB) (cp_id : String)
    (vendor model : Option String) (num_connectors : Int) :
    Except PyError DB :=
  match get_charge_point_by_id db cp_id with
  | some _ =>
      .error (.valueError
        ("Charge Point with ID " ++ cp_id ++ " already exists."))
  | none =>
      if ["charge_point_id", "vendor", "model", "num_connectors",
          "status"].all (fun k => dataChargePointAttrs.contains k) then
        -- unreachable: `vendor` is rejected by the constructor
        .ok db
      else
        .error (.typeError
          "vendor is an invalid keyword argument for ChargePoint")

/-- `DeviceManagementService.start_transaction`: checks that the station, the
connector (looked up with the swapped arguments, as in
`dms_update_connector_status`) and a fresh transaction id exist, then
constructs the `data/models.py` transaction and calls
`self.transaction_repo.add_transaction(…)` — a method `TransactionRepository`
does not have, so the call raises AttributeError. No condition on the
connector being busy is ever checked. -/
def dms_start_transaction (db : DB) (cp_id : String) (connector_id : Int)
    (id_tag : String) (meter_start : Int) (transaction_id : String)
    (now : Int) : Except PyError (DTransaction × DB) :=
  match get_charge_point_by_id db cp_id with
  | none =>
      .error (.valueError ("Charge Point with ID " ++ cp_id ++ " not found."))
  | some _ =>
  match get_connector_by_id db (.pstr cp_id) (.pint connector_id) with
  | none =>
      .error (.valueError ("Connector " ++ toString connector_id ++
        " for Charge Point " ++ cp_id ++ " not found."))
  | some _ =>
  match m_get_transaction_by_id db transaction_id with
  | some _ =>
      .error (.valueError ("Transaction with ID " ++ transaction_id ++
        " already exists."))
  | none =>
      if transactionRepositoryMethods.contains "add_transaction" then
        -- unreachable: the repository has no `add_transaction`
        let t : DTransaction :=
          { id := 0, transaction_id := transaction_id,
            charge_point_id := cp_id, connector_id := connector_id,
            id_tag := id_tag, start_time := now, stop_time := none,
            meter_start := meter_start, meter_stop := none,
            energy_transfered := 0, status := "Charging" }
        .ok (t, { db with dTransactions := db.dTransactions ++ [t] })
      else
        .error (.attributeError
          "TransactionRepository object has no attribute add_transaction")

/-- `DeviceManagementService.stop_transaction`: looks the transaction up by
its string key, assigns `stop_time`, `meter_stop`, `energy_transfered` and
`status`, commits, and resets the connector. Of the four assignments only
`status` is a mapped column of `models/transaction.py` (see
`mTransactionColumns`); the other three are unmapped instance attributes
that the commit does not persist. The connector reset goes through
`dms_update_connector_status` and its swapped lookup. No `meter_stop ≥
meter_start` check is performed anywhere. -/
def dms_stop_transaction (db : DB) (transaction_id : String)
    (meter_stop energy_transfered : Int) (now : Int) : DB × Bool :=
  match m_get_transaction_by_id db transaction_id with
  | some t =>
      let t' : MTransaction := { t with status := "Completed" }
      let db' := update_transaction db t'
      let db'' :=
        (dms_update_connector_status db' t.charge_point_id t.connector_id
          "Available").1
      (db'', true)
  | none => (db, false)

/-! ### `business_logic/transaction_service.py` -/

/-- The transaction id `TransactionService.start_transaction` generates:
`TRX-{cp}-{utcnow:%Y%m%d%H%M%S}-{connector_id}`, with the timestamp
component modeled from `now`. -/
def mkTrxId (cp_id : String) (now : Int) (connector_id : Int) : String :=
  "TRX-" ++ cp_id ++ "-" ++ toString now ++ "-" ++ toString connector_id

/-- `TransactionService.start_transaction`: resolves the id-tag through
`get_user_by_auth_tag`, looks the connector up (correct argument order at
this call site), and creates the transaction with status `Charging`.
It returns `none` (not an error) when the user or connector is unknown and
never inspects the connector's status or `current_transaction_id`. -/
def ts_start_transaction (db : DB) (charge_point_id : String)
    (connector_id : Int) (id_tag : String) (meter_start : Int)
    (timestamp : Int) (now : Int) : Option MTransaction × DB :=
  match get_user_by_auth_tag db id_tag with
  | none => (none, db)
  | some user =>
  match get_connector_by_id db (.pint connector_id)
      (.pstr charge_point_id) with
  | none => (none, db)
  | some connector =>
      let t : MTransaction :=
        { id := mkTrxId charge_point_id now connector_id,
          charge_point_id := charge_point_id,
          connector_id := connector.id,
          user_id := user.id,
          start_time := timestamp,
          end_time := none,
          start_meter_value := meter_start,
          end_meter_value := none,
          total_energy_kwh := none,
          status := "Charging",
          stop_reason := none }
      (some t, create_transaction db t)

/-- The parameter names of `TransactionService.stop_transaction`
(`self` excluded): required `transaction_id`, `meter_stop`, `timestamp`;
optional `reason`. -/
def tsStopRequiredParams : List String :=
  ["transaction_id", "meter_stop", "timestamp"]

def tsStopOptionalParams : List String := ["reason"]

/-- The keyword set `on_stop_transaction` passes to
`transaction_service.stop_transaction`. -/
def onStopCallKwargs : List String :=
  ["transaction_id", "meter_stop", "energy_transfered"]

/-- The parameter names of `TransactionService.start_transaction`
(`self` excluded), all required. -/
def tsStartRequiredParams : List String :=
  ["charge_point_id", "connector_id", "id_tag", "meter_start", "timestamp"]

/-- The keyword set `on_start_transaction` passes to
`transaction_service.start_transaction`. -/
def onStartCallKwargs : List String :=
  ["charge_point_id", "connector_id", "id_tag", "meter_start",
   "transaction_id"]

/-! ### `core/ocpp_handlers.py` (OCPP 1.6 handlers) -/

/-- The `ocpp.v16` AuthorizationStatus enumeration. -/
inductive AuthorizationStatus where
  | accepted
  | blocked
  | expired
  | invalid
  | concurrent_tx
  deriving DecidableEq, Repr

/-- `call_result.Heartbeat`: carries the current time. -/
structure HeartbeatResp where
  current_time : Int
  deriving DecidableEq, Repr

/-- `call_result.StatusNotification`: an empty payload. -/
structure StatusNotificationResp where
  deriving DecidableEq, Repr

/-- `call_result.MeterValues`: an empty payload. -/
structure MeterValuesResp where
  deriving DecidableEq, Repr

/-- `on_heartbeat`: tries `update_charge_point_last_heartbeat` and returns
`Heartbeat(current_time=utcnow())` from both the try and the except arm.
`dbFail` injects an infrastructure error raised by the service call. -/
def on_heartbeat (db : DB) (cp_id : String) (now : Int) (dbFail : Bool) :
    Except PyError HeartbeatResp × DB :=
  if dbFail then
    -- except Exception: logged; the same success response is returned
    (.ok { current_time := now }, db)
  else
    (.ok { current_time := now },
     (dms_update_charge_point_last_heartbeat db cp_id now).1)

/-- `on_status_notification`: connector id 0 updates the station status,
otherwise `update_connector_status` is called; any exception is logged and
the empty success response is returned either way. -/
def on_status_notification (db : DB) (cp_id : String) (connector_id : Int)
    (status : String) (dbFail : Bool) :
    Except PyError StatusNotificationResp × DB :=
  if dbFail then
    (.ok {}, db)
  else if connector_id == 0 then
    (.ok {}, (dms_update_charge_point_status db cp_id status).1)
  else
    (.ok {}, (dms_update_connector_status db cp_id connector_id status).1)

/-- `on_meter_values`: logs the samples and returns the empty success
response; it touches no state and cannot fail. -/
def on_meter_values (connector_id transaction_id : Int)
    (meter_value : List Int) : Except PyError MeterValuesResp :=
  .ok {}

/-- `on_authorize`: resolves the id-tag through
`dms_get_user_by_id_tag` (which raises AttributeError, see there) and
replies Invalid from the except arm. Were a user object returned, the
handler would read `user.is_active`, an attribute `models/user.py User`
does not have (see `mUserAttrs`), raising AttributeError again. -/
def on_authorize (db : DB) (id_tag : String) : AuthorizationStatus :=
  match dms_get_user_by_id_tag db id_tag with
  | .error _ => .invalid
  | .ok none => .invalid
  | .ok (some _) =>
      if mUserAttrs.contains "is_active" then
        -- unreachable: `is_active` is not an attribute of the user model
        .accepted
      else
        .invalid

/-- `on_stop_transaction`: queries the transaction by its on-wire integer
id; unknown ids reply Invalid; an already Completed transaction replies
Accepted with no further work; otherwise the clamped energy is computed and
`transaction_service.stop_transaction(transaction_id=…, meter_stop=…,
energy_transfered=…)` is called. That keyword set does not bind against the
service signature (`timestamp` missing, `energy_transfered` unexpected), so
the call raises TypeError, the except arm replies Invalid, and the session
is closed without commit. -/
def on_stop_transaction (db : DB) (transaction_id : Int) (meter_stop : Int)
    (now : Int) : AuthorizationStatus × DB :=
  match d_get_transaction_by_wire_id db transaction_id with
  | none => (.invalid, db)
  | some tx =>
      if tx.status == "Completed" then
        (.accepted, db)
      else
        let energy_transfered : Int :=
          if meter_stop - tx.meter_start < 0 then 0
          else meter_stop - tx.meter_start
        if kwargsBind onStopCallKwargs tsStopRequiredParams
            tsStopOptionalParams then
          -- unreachable: the keyword set does not bind
          (.accepted, db)
        else
          (.invalid, db)

/-! ### `core/ocpp_server.py` — the 2.0.1 dispatch engine
(`CustomChargePoint._handle_call`) -/

/-- OCPP error codes used by the dispatcher. -/
inductive OcppErrorCode where
  | protocol_error
  | not_supported
  | internal_error
  deriving DecidableEq, Repr

/-- A reply written back on the WebSocket: a CALLRESULT or a CALLERROR. -/
inductive Reply where
  | callresult (unique_id : String) (payload : String)
  | callerror (unique_id : String) (code : OcppErrorCode) (descr : String)
  deriving DecidableEq, Repr

/-- The outcome of invoking a handler coroutine: a response payload, or one
of the exception classes the dispatcher distinguishes. `raiseOther` stands
for every exception that is neither ProtocolError nor NotSupportedError. -/
inductive HandlerOutcome where
  | ok (payload : String)
  | raiseProtocolError (msg : String)
  | raiseNotSupportedError (msg : String)
  | raiseOther (msg : String)
  deriving DecidableEq, Repr

/-- `CustomChargePoint._handle_call`: looks the action up in the route map;
a missing handler is answered with a NotSupported CALLERROR; a handler
result is answered with a CALLRESULT; each exception class is answered with
the corresponding CALLERROR. The returned list is the sequence of replies
written for this CALL. -/
def handle_call (route_map : String → Option (String → HandlerOutcome))
    (unique_id action payload : String) : List Reply :=
  match route_map action with
  | some h =>
      match h payload with
      | .ok resp => [.callresult unique_id resp]
      | .raiseProtocolError m =>
          [.callerror unique_id .protocol_error m]
      | .raiseNotSupportedError m =>
          [.callerror unique_id .not_supported m]
      | .raiseOther m =>
          [.callerror unique_id .internal_error
            ("An unexpected error occurred. " ++ m)]
  | none =>
      [.callerror unique_id .not_supported
        ("Action " ++ action ++ " is not supported.")]

/-! ### `core/ocpp_server.py` — connection lifecycle
(`OCPPServer._handle_connection` and `_disconnect_charge_point`) -/

/-- The observable state of the module-level registry
`connected_charge_points` plus the set of sessions whose WebSocket has been
closed. Sessions are identified by a token. -/
structure ServerState where
  registry : List (String × Nat)
  closed : List Nat
  deriving DecidableEq, Repr

def regGet (r : List (String × Nat)) (id : String) : Option Nat :=
  (r.find? (fun p => p.1 == id)).map (fun p => p.2)

/-- `OCPPServer._disconnect_charge_point`: if the id is registered, pop the
entry and close the popped instance's WebSocket; otherwise do nothing. -/
def disconnect_charge_point (s : ServerState) (id : String) : ServerState :=
  match regGet s.registry id with
  | none => s
  | some sess =>
      { registry := s.registry.filter (fun p => !(p.1 == id)),
        closed := s.closed ++ [sess] }

/-- The registration prefix of `OCPPServer._handle_connection`: when the id
is already registered the existing session is disconnected, then the new
session is installed in the registry. -/
def handle_connection_register (s : ServerState) (id : String) (sess : Nat) :
    ServerState :=
  let s1 := if (regGet s.registry id).isSome
            then disconnect_charge_point s id else s
  { s1 with registry :=
      s1.registry.filter (fun p => !(p.1 == id)) ++ [(id, sess)] }

/-- The `finally` block of `OCPPServer._handle_connection`: when the
connection's read loop ends (for any reason), disconnect whatever session is
currently registered under this station id — with no check that it is still
this connection's own session. -/
def handle_connection_finally (s : ServerState) (id : String) : ServerState :=
  disconnect_charge_point s id

/-! ### Subprotocol negotiation and session class
(`OCPPServer.start`, `OCPPWebSocketServer.start`,
`OCPPServer._handle_connection`) -/

/-- The subprotocol list both servers advertise:
`websockets.serve(…, subprotocols=['ocpp2.0', 'ocpp2.0.1'])` in
`core/ocpp_server.py` and `core/ocpp_websocket_server.py` alike. -/
def serverSubprotocols : List String := ["ocpp2.0", "ocpp2.0.1"]

/-- Subprotocol negotiation: a client offer is selected iff it is also
advertised by the server; with no common offer, no subprotocol is
selected. -/
def negotiateSubprotocol (server client : List String) : Option String :=
  client.find? (fun c => server.contains c)

/-- The session classes defined in the source. -/
inductive SessionClass where
  | customChargePointV201
  deriving DecidableEq, Repr

/-- `OCPPServer._handle_connection` constructs
`CustomChargePoint(charge_point_id, websocket)` — the OCPP 2.0.1 session
class — for every connection, never consulting `websocket.subprotocol`. -/
def sessionClassFor (subprotocol : Option String) : SessionClass :=
  .customChargePointV201

/-! ### Spec-side definition for claim C7 -/

/-- Modelled from the spec: "it replies Accepted exactly when the id-token
resolves to an active user". The id-token resolves through the user table
and the authorized flag is the `is_active` column, which only the
`data/models.py User` model carries. -/
def spec_active_user (db : DB) (id_tag : String) : Bool :=
  match db.dUsers.find? (fun u => u.id_tag == id_tag) with
  | some u => u.is_active
  | none => false

/-! ### Concrete states used by witnesses and counterexamples -/

/-- A transaction already Completed, with consistent stop data. -/
def dbC1tx : DTransaction :=
  { id := 42, transaction_id := "TX-1", charge_point_id := "CP-1",
    connector_id := 1, id_tag := "TAG-1", start_time := 100,
    stop_time := some 200, meter_start := 10, meter_stop := some 20,
    energy_transfered := 10, status := "Completed" }

def dbC1 : DB :=
  { emptyDB with
    dTransactions := [dbC1tx],
    mConnectors := [⟨1, "CP-1", "Available", none⟩] }

/-- A still-running transaction in the `models/` family with start meter
value 100. -/
def dbC2mtx : MTransaction :=
  { id := "TRX-1", charge_point_id := "CP-1", connector_id := 1,
    user_id := "u1", start_time := 1000, end_time := none,
    start_meter_value := 100, end_meter_value := none,
    total_energy_kwh := none, status := "Charging", stop_reason := none }

/-- The `data/models.py` view of the same running transaction, with on-wire
id 7. -/
def dbC2dtx : DTransaction :=
  { id := 7, transaction_id := "TRX-1", charge_point_id := "CP-1",
    connector_id := 1, id_tag := "TAG-1", start_time := 1000,
    stop_time := none, meter_start := 100, meter_stop := none,
    energy_transfered := 0, status := "Charging" }

def dbC2 : DB :=
  { emptyDB with
    mChargePoints := [⟨"CP-1", "Online", none⟩],
    mConnectors := [⟨1, "CP-1", "Charging", some "TRX-1"⟩],
    mTransactions := [dbC2mtx],
    dTransactions := [dbC2dtx] }

/-- A state whose connector 3 of station CP-1 is busy: status Charging with
a non-null current transaction, itself present and not completed. -/
def dbC3 : DB :=
  { emptyDB with
    users := [⟨"u1", "TAG-1", "Ana"⟩],
    mChargePoints := [⟨"CP-1", "Online", none⟩],
    mConnectors := [⟨3, "CP-1", "Charging", some "TRX-0"⟩],
    mTransactions :=
      [⟨"TRX-0", "CP-1", 3, "u1", 50, none, 400, none, none, "Charging",
        none⟩] }

/-- A state where id-tag TAG-1 resolves to a user who is active (the
`data/models.py` row carries is_active = true). -/
def dbC7 : DB :=
  { emptyDB with
    users := [⟨"u1", "TAG-1", "Ana"⟩],
    dUsers := [⟨"u1", "TAG-1", true⟩] }

/-- A station CP-001 with one connector (database key 7, connector number
within reach of the claim) in status Available. -/
def dbC9 : DB :=
  { emptyDB with
    mChargePoints := [⟨"CP-001", "Online", none⟩],
    mConnectors := [⟨7, "CP-001", "Available", none⟩] }

/-- A state that already contains station CP-001. -/
def dbC10 : DB :=
  { emptyDB with mChargePoints := [⟨"CP-001", "Online", none⟩] }

/-- The takeover interleaving: station CP-001 registers as session 1; a
second connection for the same id arrives (disconnecting session 1 and
registering session 2); then the first connection's read loop observes its
closed socket and its `finally` block runs. -/
def takeoverTrace : ServerState :=
  handle_connection_finally
    (handle_connection_register
      (handle_connection_register ⟨[], []⟩ "CP-001" 1) "CP-001" 2)
    "CP-001"

/-- A small route map: one action with a succeeding handler, everything else
unregistered. -/
def rm0 : String → Option (String → HandlerOutcome) :=
  fun a => if a == "Heartbeat" then some (fun _ => .ok "hb") else none

/-! ## Helper lemmas -/

/-- `dms_update_connector_status` touches only the connector table. -/
theorem dms_update_connector_status_mTransactions (db : DB) (cp : String)
    (cid : Int) (st : String) :
    ((dms_update_connector_status db cp cid st).1).mTransactions =
      db.mTransactions := by
  unfold dms_update_connector_status
  cases h : get_connector_by_id db (.pstr cp) (.pint cid) <;> simp

/-- Replacing, by key, the transaction that `find?` locates makes `find?`
return the replacement. -/
theorem find_update_transaction (l : List MTransaction) (txid : String)
    (tx t' : MTransaction)
    (h : l.find? (fun t => t.id == txid) = some tx) (hid : t'.id = tx.id) :
    (l.map (fun x => if x.id == t'.id then t' else x)).find?
      (fun t => t.id == txid) = some t' := by
  induction l with
  | nil => simp at h
  | cons a l ih =>
    by_cases ha : (a.id == txid) = true
    · simp only [List.find?, ha] at h
      injection h with h
      subst h
      have hfa : (if (a.id == t'.id) then t' else a) = t' := by
        rw [hid]; simp
      have hp : (t'.id == txid) = true := by rw [hid]; exact ha
      simp only [List.map, hfa, List.find?, hp]
    · have ha' : (a.id == txid) = false := by
        cases hb : (a.id == txid) with
        | true => exact absurd hb ha
        | false => rfl
      simp only [List.find?, ha'] at h
      have htx : (tx.id == txid) = true :=
        @List.find?_some _ (fun t : MTransaction => t.id == txid) tx l h
      have hne : (a.id == t'.id) = false := by
        rw [hid]
        apply beq_eq_false_iff_ne.mpr
        intro hcontra
        apply ha
        rw [hcontra]
        exact htx
      have hfa : (if (a.id == t'.id) then t' else a) = a := by
        rw [hne]; simp
      simp only [List.map, hfa, List.find?, ha']
      exact ih h

/-! ## Claim C1 -/

/-- Claim C1: a StopTransaction CALL whose transaction id refers to a
transaction whose status is already Completed is answered with
idTagInfo.status = Accepted, and the whole store — the stored transaction
(stop timestamp, stop meter value, energy, status) and the owning
connector's state included — is left unchanged. -/
theorem stop_transaction_duplicate_completed_noop
    (db : DB) (txid ms now : Int) (tx : DTransaction)
    (hfind : d_get_transaction_by_wire_id db txid = some tx)
    (hdone : tx.status = "Completed") :
    on_stop_transaction db txid ms now = (.accepted, db) := by
  simp [on_stop_transaction, hfind, hdone]

/-- Witness for C1 at a concrete state: transaction 42 is Completed and a
second StopTransaction is answered Accepted with the state unchanged. -/
theorem stop_transaction_duplicate_completed_noop_witness :
    d_get_transaction_by_wire_id dbC1 42 = some dbC1tx ∧
    dbC1tx.status = "Completed" ∧
    on_stop_transaction dbC1 42 30 300 = (.accepted, dbC1) :=
  ⟨by decide, by decide,
   stop_transaction_duplicate_completed_noop dbC1 42 30 300 dbC1tx
     (by decide) (by decide)⟩

/-! ## Claim C2 -/

/-- Claim C2 counterexample: stopping transaction TRX-1 (start meter 100)
with meter_stop = 50 marks it Completed, yet the stored stop meter value
and stop timestamp are still NULL — so "stop-meter ≥ start-meter ∧
stop-timestamp ≥ start-timestamp once Completed" fails (and the requested
stop meter 50 is below the start meter 100 with no check anywhere). The
stop writes are dropped because `stop_time`, `meter_stop` and
`energy_transfered` are not mapped columns of the transaction model. -/
theorem stop_invariant_counterexample :
    m_get_transaction_by_id
        ((dms_stop_transaction dbC2 "TRX-1" 50 0 2000).1) "TRX-1" =
      some { dbC2mtx with status := "Completed" } ∧
    ({ dbC2mtx with status := "Completed" } : MTransaction).end_meter_value
      = none ∧
    ({ dbC2mtx with status := "Completed" } : MTransaction).end_time
      = none ∧
    ({ dbC2mtx with status := "Completed" } : MTransaction).start_meter_value
      = 100 ∧
    mTransactionColumns.contains "stop_time" = false ∧
    mTransactionColumns.contains "meter_stop" = false ∧
    mTransactionColumns.contains "energy_transfered" = false ∧
    (50 : Int) < 100 := by decide

/-- Claim C2 amended: after `DeviceManagementService.stop_transaction` runs
on an existing transaction the transaction is Completed, but its stored
stop meter value, stop timestamp and energy are exactly what they were
before (the assignments target unmapped attributes and no meter_stop ≥
meter_start check exists); and the OCPP stop handler itself never completes
a transaction — for a non-Completed transaction its service call raises
TypeError, it replies Invalid and the state is unchanged. -/
theorem stop_transaction_stores_no_stop_data
    (db : DB) (txid : String) (ms e now : Int) (tx : MTransaction)
    (hfind : m_get_transaction_by_id db txid = some tx)
    (db2 : DB) (wtx wms wnow : Int) (dtx : DTransaction)
    (hfind2 : d_get_transaction_by_wire_id db2 wtx = some dtx)
    (hnc : dtx.status ≠ "Completed") :
    m_get_transaction_by_id ((dms_stop_transaction db txid ms e now).1) txid
      = some { tx with status := "Completed" } ∧
    on_stop_transaction db2 wtx wms wnow = (.invalid, db2) := by
  constructor
  · simp only [dms_stop_transaction, hfind]
    unfold m_get_transaction_by_id
    rw [dms_update_connector_status_mTransactions]
    unfold update_transaction
    exact find_update_transaction db.mTransactions txid tx _ hfind rfl
  · have hne : (dtx.status == "Completed") = false :=
      beq_eq_false_iff_ne.mpr hnc
    have hk : kwargsBind onStopCallKwargs tsStopRequiredParams
        tsStopOptionalParams = false := by decide
    simp [on_stop_transaction, hfind2, hne, hk]

/-- Witness for the amended C2 theorem at the concrete state dbC2. -/
theorem stop_transaction_stores_no_stop_data_witness :
    m_get_transaction_by_id
        ((dms_stop_transaction dbC2 "TRX-1" 50 0 2000).1) "TRX-1"
      = some { dbC2mtx with status := "Completed" } ∧
    on_stop_transaction dbC2 7 60 70 = (.invalid, dbC2) :=
  stop_transaction_stores_no_stop_data dbC2 "TRX-1" 50 0 2000 dbC2mtx
    (by decide) dbC2 7 60 70 dbC2dtx (by decide) (by decide)

/-! ## Claim C3 -/

/-- Claim C3 counterexample: connector 3 of CP-1 is busy (status Charging
with transaction TRX-0 in flight), yet `TransactionService.start_transaction`
succeeds and creates a second transaction instead of failing with a
ConnectorBusy error. -/
theorem connector_busy_counterexample :
    get_connector_by_id dbC3 (.pint 3) (.pstr "CP-1") =
      some ⟨3, "CP-1", "Charging", some "TRX-0"⟩ ∧
    (ts_start_transaction dbC3 "CP-1" 3 "TAG-1" 500 100 100).1.isSome
      = true ∧
    (ts_start_transaction dbC3 "CP-1" 3 "TAG-1" 500
        100 100).2.mTransactions.length
      = dbC3.mTransactions.length + 1 := by decide

/-- Claim C3 amended: neither start-transaction service checks connector
busyness. Whenever the id-tag resolves and the connector exists,
`TransactionService.start_transaction` creates a new transaction — whatever
the connector's status or current-transaction reference; and
`DeviceManagementService.start_transaction` can only fail with a ValueError
about existence (station, connector, duplicate id) or with the
AttributeError from the missing `add_transaction` repository method — no
ConnectorBusy error exists. -/
theorem start_transaction_no_busy_check
    (db : DB) (cp : String) (cid : Int) (tag : String) (ms ts now : Int)
    (u : MUser) (c : MConnector)
    (hu : get_user_by_auth_tag db tag = some u)
    (hc : get_connector_by_id db (.pint cid) (.pstr cp) = some c)
    (db2 : DB) (cp2 : String) (cid2 : Int) (tag2 : String) (ms2 : Int)
    (txid2 : String) (now2 : Int) :
    (ts_start_transaction db cp cid tag ms ts now).1.isSome = true ∧
    (ts_start_transaction db cp cid tag ms ts now).2.mTransactions.length
      = db.mTransactions.length + 1 ∧
    ((∃ m, dms_start_transaction db2 cp2 cid2 tag2 ms2 txid2 now2 =
        .error (.valueError m)) ∨
      dms_start_transaction db2 cp2 cid2 tag2 ms2 txid2 now2 =
        .error (.attributeError
          "TransactionRepository object has no attribute add_transaction"))
    := by
  refine ⟨?_, ?_, ?_⟩
  · simp [ts_start_transaction, hu, hc]
  · simp [ts_start_transaction, hu, hc, create_transaction]
  · cases hA : get_charge_point_by_id db2 cp2 with
    | none =>
        exact Or.inl ⟨"Charge Point with ID " ++ cp2 ++ " not found.",
          by simp [dms_start_transaction, hA]⟩
    | some cpv =>
        cases hB : get_connector_by_id db2 (.pstr cp2) (.pint cid2) with
        | none =>
            exact Or.inl ⟨"Connector " ++ toString cid2 ++
                " for Charge Point " ++ cp2 ++ " not found.",
              by simp [dms_start_transaction, hA, hB]⟩
        | some cv =>
            cases hC : m_get_transaction_by_id db2 txid2 with
            | some t =>
                exact Or.inl ⟨"Transaction with ID " ++ txid2 ++
                    " already exists.",
                  by simp [dms_start_transaction, hA, hB, hC]⟩
            | none =>
                refine Or.inr ?_
                simp [dms_start_transaction, hA, hB, hC]
                decide

/-- Witness for the amended C3 theorem at the concrete busy state dbC3. -/
theorem start_transaction_no_busy_check_witness :
    (ts_start_transaction dbC3 "CP-1" 3 "TAG-1" 500 100 100).1.isSome
      = true ∧
    (ts_start_transaction dbC3 "CP-1" 3 "TAG-1" 500
        100 100).2.mTransactions.length
      = dbC3.mTransactions.length + 1 ∧
    ((∃ m, dms_start_transaction dbC3 "CP-X" 1 "TAG-1" 0 "T1" 0 =
        .error (.valueError m)) ∨
      dms_start_transaction dbC3 "CP-X" 1 "TAG-1" 0 "T1" 0 =
        .error (.attributeError
          "TransactionRepository object has no attribute add_transaction"))
    :=
  start_transaction_no_busy_check dbC3 "CP-1" 3 "TAG-1" 500 100 100
    ⟨"u1", "TAG-1", "Ana"⟩ ⟨3, "CP-1", "Charging", some "TRX-0"⟩
    (by decide) (by decide) dbC3 "CP-X" 1 "TAG-1" 0 "T1" 0

/-! ## Claim C4 -/

/-- Claim C4 (code bug): after a takeover of station CP-001 (session 2
replaces session 1) and after the replaced connection finishes closing, the
claim says the registry maps CP-001 to the newest session; instead the
first connection's `finally` block pops and closes whatever session is
registered — the new one — so the registry maps CP-001 to nothing and both
sessions' WebSockets have been closed. -/
theorem takeover_cleanup_removes_new_session :
    regGet takeoverTrace.registry "CP-001" = none ∧
    takeoverTrace.closed = [1, 2] := by decide

/-! ## Claim C9 -/

/-- Claim C9 (code bug): a StatusNotification with connector-id 1 from
station CP-001 should update that connector's status (and error code), but
`update_connector_status` passes `(cp_id, connector_id)` to a repository
method whose signature is `(connector_id, cp_id)`, so the lookup compares
the integer connector key with the station-id string, finds nothing, and
the state is left entirely unchanged. The connector-id 0 branch does update
the station's status and leaves the connectors unchanged. -/
theorem status_notification_swapped_lookup :
    on_status_notification dbC9 "CP-001" 1 "Charging" false =
      (.ok {}, dbC9) ∧
    (on_status_notification dbC9 "CP-001" 0 "Faulted" false).2.mChargePoints
      = [⟨"CP-001", "Faulted", none⟩] ∧
    (on_status_notification dbC9 "CP-001" 0 "Faulted" false).2.mConnectors
      = dbC9.mConnectors := by decide

/-! ## Claim C10 -/

/-- Claim C10 (code bug): `add_charge_point` on a fresh station id should
create the station and its connectors, but the constructor call passes the
keyword `vendor`, which `data/models.py ChargePoint` does not accept (its
column is `vendor_name`), so a TypeError is raised and nothing is created
(the repository also lacks the `add_charge_point` and `add_connector`
methods the writes would need). The duplicate-id branch does raise
ValueError before any write. -/
theorem add_charge_point_constructor_failure :
    dms_add_charge_point emptyDB "CP-001" (some "V") (some "M") 2 =
      .error (.typeError
        "vendor is an invalid keyword argument for ChargePoint") ∧
    dataChargePointAttrs.contains "vendor" = false ∧
    chargePointRepositoryMethods.contains "add_charge_point" = false ∧
    chargePointRepositoryMethods.contains "add_connector" = false ∧
    dms_add_charge_point dbC10 "CP-001" (some "V") (some "M") 2 =
      .error (.valueError
        "Charge Point with ID CP-001 already exists.") := by decide

/-! ## Claim C5 -/

/-- Claim C5: for every inbound CALL, the 2.0.1 dispatcher writes exactly
one reply and lets no exception propagate: a CALLRESULT when the handler
succeeds, a NotSupported CALLERROR when the action has no handler, and an
InternalError CALLERROR when the handler raises an exception the dispatcher
does not otherwise classify. -/
theorem dispatcher_exactly_one_reply
    (route_map : String → Option (String → HandlerOutcome))
    (uid action payload : String) :
    (handle_call route_map uid action payload).length = 1 ∧
    (∀ h p, route_map action = some h → h payload = .ok p →
      handle_call route_map uid action payload = [.callresult uid p]) ∧
    (route_map action = none →
      handle_call route_map uid action payload =
        [.callerror uid .not_supported
          ("Action " ++ action ++ " is not supported.")]) ∧
    (∀ h m, route_map action = some h → h payload = .raiseOther m →
      handle_call route_map uid action payload =
        [.callerror uid .internal_error
          ("An unexpected error occurred. " ++ m)]) := by
  refine ⟨?_, ?_, ?_, ?_⟩
  · unfold handle_call
    cases hr : route_map action with
    | none => rfl
    | some h => cases hh : h payload <;> simp [hh]
  · intro h p hr hp
    simp [handle_call, hr, hp]
  · intro hr
    simp [handle_call, hr]
  · intro h m hr hm
    simp [handle_call, hr, hm]

/-- Witness for C5 at a concrete route map: the registered action is
answered by one CALLRESULT, the unknown action by one NotSupported
CALLERROR. -/
theorem dispatcher_exactly_one_reply_witness :
    handle_call rm0 "m1" "Heartbeat" "pl" = [.callresult "m1" "hb"] ∧
    handle_call rm0 "m2" "Bogus" "pl" =
      [.callerror "m2" .not_supported
        ("Action " ++ "Bogus" ++ " is not supported.")] :=
  ⟨(dispatcher_exactly_one_reply rm0 "m1" "Heartbeat" "pl").2.1
      (fun _ => .ok "hb") "hb" rfl rfl,
   (dispatcher_exactly_one_reply rm0 "m2" "Bogus" "pl").2.2.1 rfl⟩

/-! ## Claim C6 -/

/-- Claim C6: for the idempotent write actions Heartbeat,
StatusNotification and MeterValues, a database error raised while handling
the message is caught and logged, and the protocol response is still the
normal success response — never an error reply. -/
theorem idempotent_write_errors_still_succeed
    (db : DB) (cp_id : String) (now : Int) (dbFail : Bool)
    (connector_id : Int) (status : String)
    (mv_cid mv_tx : Int) (mv : List Int) :
    (on_heartbeat db cp_id now dbFail).1 = .ok { current_time := now } ∧
    (on_status_notification db cp_id connector_id status dbFail).1
      = .ok {} ∧
    on_meter_values mv_cid mv_tx mv = .ok {} := by
  refine ⟨?_, ?_, rfl⟩
  · unfold on_heartbeat
    cases dbFail <;> rfl
  · unfold on_status_notification
    cases dbFail with
    | true => rfl
    | false =>
        by_cases h0 : (connector_id == 0) = true
        · simp [h0]
        · simp [h0]

/-! ## Claim C7 -/

/-- Claim C7 counterexample: the id-token TAG-1 resolves to a user who is
active, yet the Authorize handler replies Invalid, not Accepted — so
"Accepted exactly when the id-token resolves to an active user" fails (and
no ConcurrentTx, Blocked or Expired reply exists anywhere in the
handler). -/
theorem authorize_counterexample :
    spec_active_user dbC7 "TAG-1" = true ∧
    (get_user_by_auth_tag dbC7 "TAG-1").isSome = true ∧
    on_authorize dbC7 "TAG-1" = .invalid := by decide

/-- Claim C7 amended: the v1.6 Authorize handler is the constant function
replying Invalid — the user lookup always raises AttributeError because
`UserRepository` has no `get_user_by_id_tag` method (and the user model has
no `is_active` attribute either), and the except arm replies Invalid. It
never replies Accepted, Blocked, Expired or ConcurrentTx. -/
theorem authorize_always_invalid (db : DB) (id_tag : String) :
    on_authorize db id_tag = .invalid := by
  have h : ¬ ("get_user_by_id_tag" ∈ userRepositoryMethods) := by decide
  simp [on_authorize, dms_get_user_by_id_tag, h]

/-! ## Claim C8 -/

/-- Claim C8 counterexample: the servers advertise subprotocols
{ocpp2.0, ocpp2.0.1}, not {ocpp1.6, ocpp2.0.1}; a client offering
ocpp1.6 — which the claim says is negotiable — matches nothing. -/
theorem subprotocol_counterexample :
    serverSubprotocols = ["ocpp2.0", "ocpp2.0.1"] ∧
    serverSubprotocols.contains "ocpp1.6" = false ∧
    negotiateSubprotocol serverSubprotocols ["ocpp1.6"] = none := by decide

/-- Claim C8 amended: negotiation draws from the advertised set
{ocpp2.0, ocpp2.0.1}: every client offering nothing from that set
negotiates no subprotocol, offering ocpp2.0.1 succeeds, and the selected
subprotocol does not choose a message registry — the connection handler
constructs the OCPP 2.0.1 session class whatever was negotiated. -/
theorem subprotocol_negotiation_amended
    (client : List String)
    (hnone : ∀ s ∈ client, serverSubprotocols.contains s = false)
    (sub : Option String) :
    negotiateSubprotocol serverSubprotocols client = none ∧
    negotiateSubprotocol serverSubprotocols ["ocpp2.0.1"]
      = some "ocpp2.0.1" ∧
    sessionClassFor sub = .customChargePointV201 := by
  refine ⟨?_, by decide, rfl⟩
  unfold negotiateSubprotocol
  rw [List.find?_eq_none]
  intro x hx
  simpa using hnone x hx

/-- Witness for the amended C8 theorem with a client offering only
ocpp1.6. -/
theorem subprotocol_negotiation_amended_witness :
    negotiateSubprotocol serverSubprotocols ["ocpp1.6"] = none ∧
    negotiateSubprotocol serverSubprotocols ["ocpp2.0.1"]
      = some "ocpp2.0.1" ∧
    sessionClassFor (some "ocpp2.0") = .customChargePointV201 :=
  subprotocol_negotiation_amended ["ocpp1.6"] (by decide) (some "ocpp2.0")

end SigecVE
